import Mathlib

/-!
Verification of the gtcp message-server core against its specification.

The Go sources are shallowly embedded: byte slices become `List Nat`
(each entry a byte value), `uint32` values become `Nat` (every value read
by the decoder comes from 4 bytes and is therefore `< 2^32`), Go run-time
panics (out-of-range slice indexing) become `Option.none`, and the
interceptor-chain call `ProceedWithIMessage(msg, payload)` becomes the
returned pair `(msg, payload)`.
-/

namespace Gtcp

/-! ## giface: messages and the length-field descriptor -/

/-- The message triple carried between layers
(`giface.IMessage`: `GetMsgID`, `GetDataLen`, `GetData`). -/
structure Message where
  msgId : Nat
  dataLen : Nat
  data : List Nat
  deriving DecidableEq, Repr

/-- Byte order selector (`binary.BigEndian` / `binary.LittleEndian`). -/
inductive ByteOrder where
  | big
  | little
  deriving DecidableEq, Repr

/-- Embeds `giface.LengthField`: the framer configuration descriptor. -/
structure LengthField where
  MaxFrameLength : Nat
  LengthFieldOffset : Nat
  LengthFieldLength : Nat
  LengthAdjustment : Int
  InitialBytesToStrip : Nat
  Order : ByteOrder
  deriving DecidableEq, Repr

/-! ## gdecoder: the LTV little-endian decoder -/

/-- Embeds `gdecoder.LTV_HEADER_SIZE`: 4 length bytes plus 4 tag bytes. -/
def LTV_HEADER_SIZE : Nat := 8

/-- The decoded triple held by `gdecoder.LTV_Little_Decoder`. -/
structure LTV_Little_Decoder where
  Length : Nat
  Tag : Nat
  Value : List Nat
  deriving DecidableEq, Repr

/-- Embeds `binary.LittleEndian.Uint32`: little-endian u32 from the first four
bytes of the slice (callers always pass a 4-byte slice). -/
def leUint32 : List Nat → Nat
  | b0 :: b1 :: b2 :: b3 :: _ => b0 + b1 * 256 + b2 * 65536 + b3 * 16777216
  | _ => 0

/-- Embeds `LTV_Little_Decoder.GetLengthField`: `MaxFrameLength` is
`math.MaxUint32 + 4 + 4`, the length field is the first 4 bytes, the
adjustment accounts for the 4 tag bytes after it, nothing is stripped,
and the byte order is little-endian. -/
def GetLengthField : LengthField :=
  { MaxFrameLength := 4294967295 + 4 + 4
    LengthFieldOffset := 0
    LengthFieldLength := 4
    LengthAdjustment := 4
    InitialBytesToStrip := 0
    Order := ByteOrder.little }

/-- Embeds `LTV_Little_Decoder.decode`: reads L from bytes 0..4, T from
bytes 4..8, and the value from `data[8 : 8+L]`.  The high slice bound
`8 + ltvData.Length` is computed in Go in `uint32`, so it wraps modulo
`2^32` (for L ≥ `2^32 - 8` it wraps below 8).  A Go slice
`data[lo : hi]` is legal iff `lo ≤ hi ≤ len(data)`; otherwise it
panics, modelled as `none`. -/
def decode (data : List Nat) : Option LTV_Little_Decoder :=
  if LTV_HEADER_SIZE ≤ data.length then
    let length := leUint32 (data.take 4)
    let tag := leUint32 ((data.drop 4).take 4)
    let hi := (LTV_HEADER_SIZE + length) % 4294967296
    if LTV_HEADER_SIZE ≤ hi ∧ hi ≤ data.length then
      some { Length := length, Tag := tag,
             Value := (data.drop 8).take (hi - LTV_HEADER_SIZE) }
    else
      none
  else
    none

/-- Embeds `LTV_Little_Decoder.Intercept`: a `nil` message is forwarded as-is;
data shorter than the header is forwarded undecoded; otherwise the
message is decoded and its id, length and data are overwritten before it
proceeds.  The result is the `(message, payload)` pair handed to
`chain.ProceedWithIMessage`; `none` models a decode panic. -/
def Intercept (msg : Option Message) :
    Option (Option Message × Option LTV_Little_Decoder) :=
  match msg with
  | none => some (none, none)
  | some m =>
    if m.data.length < LTV_HEADER_SIZE then
      some (some m, none)
    else
      match decode m.data with
      | none => none
      | some ltvData =>
        some (some { msgId := ltvData.Tag, dataLen := ltvData.Length,
                     data := ltvData.Value }, some ltvData)

/-! ## Framer frame-size check

The generic framer itself is not among the provided sources; only its
configuration (`GetLengthField`) is.  Its size check is therefore taken
from the specification. -/

/-- Modelled from the spec: step (c) of the framer algorithm computes the
total frame byte count `F = offset + length_field_length + L +
length_adjustment` for a frame declaring `L` length-field bytes.  The
framer source (the `LengthField` consumer) is not under the provided
sources. -/
def frameTotalLength (lf : LengthField) (L : Nat) : Int :=
  (lf.LengthFieldOffset : Int) + (lf.LengthFieldLength : Int) + (L : Int) +
    lf.LengthAdjustment

/-- Modelled from the spec: the framer fails with `FrameTooLarge` exactly
when `F > max_frame_length`. -/
def frameTooLarge (lf : LengthField) (L : Nat) : Bool :=
  frameTotalLength lf L > (lf.MaxFrameLength : Int)

/-! ## gconf: merging the user configuration into the global one -/

/-- The configuration object (`gconf.Config` / `gconf.GlobalObject`),
restricted to the fields `UserConfToGlobal` touches.  Go zero values are
`""`, `0` and `false`. -/
structure Config where
  Name : String
  Host : String
  TcpPort : Nat
  Version : String
  MaxPacketSize : Nat
  MaxConn : Nat
  WorkerPoolSize : Nat
  MaxWorkerTaskLen : Nat
  WorkerMode : String
  MaxMsgChanLen : Nat
  IOReadBuffSize : Nat
  LogIsolationLevel : Nat
  LogDir : String
  LogFile : String
  HeartbeatMax : Nat
  CertFile : String
  PrivateKeyFile : String
  Mode : String
  WsPort : Nat
  RouterSlicesMode : Bool
  RequestPoolMode : Bool
  KcpPort : Nat
  KcpACKNoDelay : Bool
  KcpStreamMode : Bool
  KcpNoDelay : Nat
  KcpInterval : Nat
  KcpResend : Nat
  KcpNc : Nat
  KcpSendWindow : Nat
  KcpRecvWindow : Nat
  KcpFecDataShards : Nat
  KcpFecParityShards : Nat
  deriving DecidableEq, Repr

/-- Embeds `gconf.UserConfToGlobal`: copies each user field into the global
object, guarded field by field exactly as in the source (`!= ""`,
`!= 0`, truth of the flag — and `!config.KcpStreamMode` for the KCP
stream-mode flag).  The mutation of `GlobalObject` becomes explicit
state passing; the `glog.SetLogLevel` / `glog.SetLogFile` calls touch
only the external logging sink and have no effect on the configuration
state. -/
def UserConfToGlobal (config : Config) (g0 : Config) : Config :=
  let g1 : Config := if config.Name ≠ "" then { g0 with Name := config.Name } else g0
  let g2 : Config := if config.Host ≠ "" then { g1 with Host := config.Host } else g1
  let g3 : Config := if config.TcpPort ≠ 0 then { g2 with TcpPort := config.TcpPort } else g2
  let g4 : Config := if config.Version ≠ "" then { g3 with Version := config.Version } else g3
  let g5 : Config := if config.MaxPacketSize ≠ 0 then { g4 with MaxPacketSize := config.MaxPacketSize } else g4
  let g6 : Config := if config.MaxConn ≠ 0 then { g5 with MaxConn := config.MaxConn } else g5
  let g7 : Config := if config.WorkerPoolSize ≠ 0 then { g6 with WorkerPoolSize := config.WorkerPoolSize } else g6
  let g8 : Config := if config.MaxWorkerTaskLen ≠ 0 then { g7 with MaxWorkerTaskLen := config.MaxWorkerTaskLen } else g7
  let g9 : Config := if config.WorkerMode ≠ "" then { g8 with WorkerMode := config.WorkerMode } else g8
  let g10 : Config := if config.MaxMsgChanLen ≠ 0 then { g9 with MaxMsgChanLen := config.MaxMsgChanLen } else g9
  let g11 : Config := if config.IOReadBuffSize ≠ 0 then { g10 with IOReadBuffSize := config.IOReadBuffSize } else g10
  let g12 : Config := { g11 with LogIsolationLevel := config.LogIsolationLevel }
  let g13 : Config := if config.LogDir ≠ "" then { g12 with LogDir := config.LogDir } else g12
  let g14 : Config := if config.LogFile ≠ "" then { g13 with LogFile := config.LogFile } else g13
  let g15 : Config := if config.HeartbeatMax ≠ 0 then { g14 with HeartbeatMax := config.HeartbeatMax } else g14
  let g16 : Config := if config.CertFile ≠ "" then { g15 with CertFile := config.CertFile } else g15
  let g17 : Config := if config.PrivateKeyFile ≠ "" then { g16 with PrivateKeyFile := config.PrivateKeyFile } else g16
  let g18 : Config := if config.Mode ≠ "" then { g17 with Mode := config.Mode } else g17
  let g19 : Config := if config.WsPort ≠ 0 then { g18 with WsPort := config.WsPort } else g18
  let g20 : Config := if config.RouterSlicesMode = true then { g19 with RouterSlicesMode := config.RouterSlicesMode } else g19
  let g21 : Config := if config.RequestPoolMode = true then { g20 with RequestPoolMode := config.RequestPoolMode } else g20
  let g22 : Config := if config.KcpPort ≠ 0 then { g21 with KcpPort := config.KcpPort } else g21
  let g23 : Config := if config.KcpACKNoDelay = true then { g22 with KcpACKNoDelay := config.KcpACKNoDelay } else g22
  let g24 : Config := if config.KcpStreamMode = false then { g23 with KcpStreamMode := config.KcpStreamMode } else g23
  let g25 : Config := if config.KcpNoDelay ≠ 0 then { g24 with KcpNoDelay := config.KcpNoDelay } else g24
  let g26 : Config := if config.KcpInterval ≠ 0 then { g25 with KcpInterval := config.KcpInterval } else g25
  let g27 : Config := if config.KcpResend ≠ 0 then { g26 with KcpResend := config.KcpResend } else g26
  let g28 : Config := if config.KcpNc ≠ 0 then { g27 with KcpNc := config.KcpNc } else g27
  let g29 : Config := if config.KcpSendWindow ≠ 0 then { g28 with KcpSendWindow := config.KcpSendWindow } else g28
  let g30 : Config := if config.KcpRecvWindow ≠ 0 then { g29 with KcpRecvWindow := config.KcpRecvWindow } else g29
  let g31 : Config := if config.KcpFecDataShards ≠ 0 then { g30 with KcpFecDataShards := config.KcpFecDataShards } else g30
  let g32 : Config := if config.KcpFecParityShards ≠ 0 then { g31 with KcpFecParityShards := config.KcpFecParityShards } else g31
  g32

end Gtcp

namespace Gtcp

/-- C1 counterexample. The claim quantifies over every message whose
data holds at least 8 bytes.  The frame `05 00 00 00 01 00 00 00` has
exactly 8 bytes and declares a 5-byte value, so `decode` evaluates
`data[8:13]` on an 8-byte slice: an out-of-range panic (modelled `none`).
The interceptor produces no decoded message at all, so none of the
claimed field equations can hold for it. -/
theorem C1_counterexample :
    LTV_HEADER_SIZE ≤ ([5, 0, 0, 0, 1, 0, 0, 0] : List Nat).length ∧
    Intercept (some ⟨0, 0, [5, 0, 0, 0, 1, 0, 0, 0]⟩) = none := by
  decide

/-- C1 (amended). For every message whose data contains at least 8
bytes and whose header-declared length `L` (little-endian u32 at bytes
0..4) satisfies both `8 + L < 2^32` (the uint32 slice bound does not
wrap) and `8 + L ≤ len(data)`, the decoder interceptor sets `msg_id` to
the little-endian u32 tag at bytes 4..8, `data` to the `L` value bytes
at offsets 8..8+L, `data_len` to `L`, and `data_len == len(data)` holds
afterwards.  Outside these bounds — declared length exceeding the
available bytes, or `L ≥ 2^32 - 8` wrapping the uint32 bound below 8 —
the slice is invalid and the decoder panics. -/
theorem C1_ltv_decode_fields (m : Message)
    (h8 : LTV_HEADER_SIZE ≤ m.data.length)
    (hnw : LTV_HEADER_SIZE + leUint32 (m.data.take 4) < 4294967296)
    (hfit : LTV_HEADER_SIZE + leUint32 (m.data.take 4) ≤ m.data.length) :
    Intercept (some m) =
      some (some ⟨leUint32 ((m.data.drop 4).take 4),
                  leUint32 (m.data.take 4),
                  (m.data.drop 8).take (leUint32 (m.data.take 4))⟩,
            some ⟨leUint32 (m.data.take 4),
                  leUint32 ((m.data.drop 4).take 4),
                  (m.data.drop 8).take (leUint32 (m.data.take 4))⟩) ∧
    ((m.data.drop 8).take (leUint32 (m.data.take 4))).length =
      leUint32 (m.data.take 4) := by
  have hlt : ¬ m.data.length < LTV_HEADER_SIZE := not_lt.mpr h8
  refine ⟨?_, ?_⟩
  · simp only [Intercept, decode, if_neg hlt, if_pos h8]
    rw [Nat.mod_eq_of_lt hnw]
    rw [if_pos ⟨Nat.le_add_right _ _, hfit⟩]
    simp [Nat.add_sub_cancel_left]
  · rw [List.length_take, List.length_drop]
    simp only [LTV_HEADER_SIZE] at hfit
    omega

/-- Witness for C1: the 13-byte HELLO frame satisfies both hypotheses and
the amended conclusion. -/
theorem C1_ltv_decode_fields_witness :
    (LTV_HEADER_SIZE ≤
        ([0x05, 0x00, 0x00, 0x00, 0x01, 0x00, 0x00, 0x00,
          0x48, 0x45, 0x4C, 0x4C, 0x4F] : List Nat).length) ∧
    (LTV_HEADER_SIZE +
        leUint32 (([0x05, 0x00, 0x00, 0x00, 0x01, 0x00, 0x00, 0x00,
          0x48, 0x45, 0x4C, 0x4C, 0x4F] : List Nat).take 4) < 4294967296) ∧
    (Intercept (some ⟨7, 7, [0x05, 0x00, 0x00, 0x00, 0x01, 0x00, 0x00, 0x00,
                             0x48, 0x45, 0x4C, 0x4C, 0x4F]⟩) =
      some (some ⟨leUint32 (([0x05, 0x00, 0x00, 0x00, 0x01, 0x00, 0x00, 0x00,
                   0x48, 0x45, 0x4C, 0x4C, 0x4F] : List Nat).drop 4 |>.take 4),
                  leUint32 (([0x05, 0x00, 0x00, 0x00, 0x01, 0x00, 0x00, 0x00,
                   0x48, 0x45, 0x4C, 0x4C, 0x4F] : List Nat).take 4),
                  (([0x05, 0x00, 0x00, 0x00, 0x01, 0x00, 0x00, 0x00,
                   0x48, 0x45, 0x4C, 0x4C, 0x4F] : List Nat).drop 8).take
                    (leUint32 (([0x05, 0x00, 0x00, 0x00, 0x01, 0x00, 0x00, 0x00,
                     0x48, 0x45, 0x4C, 0x4C, 0x4F] : List Nat).take 4))⟩,
            some ⟨leUint32 (([0x05, 0x00, 0x00, 0x00, 0x01, 0x00, 0x00, 0x00,
                   0x48, 0x45, 0x4C, 0x4C, 0x4F] : List Nat).take 4),
                  leUint32 (([0x05, 0x00, 0x00, 0x00, 0x01, 0x00, 0x00, 0x00,
                   0x48, 0x45, 0x4C, 0x4C, 0x4F] : List Nat).drop 4 |>.take 4),
                  (([0x05, 0x00, 0x00, 0x00, 0x01, 0x00, 0x00, 0x00,
                   0x48, 0x45, 0x4C, 0x4C, 0x4F] : List Nat).drop 8).take
                    (leUint32 (([0x05, 0x00, 0x00, 0x00, 0x01, 0x00, 0x00, 0x00,
                     0x48, 0x45, 0x4C, 0x4C, 0x4F] : List Nat).take 4))⟩)) := by
  refine ⟨by decide, by decide,
    (C1_ltv_decode_fields ⟨7, 7, [0x05, 0x00, 0x00, 0x00, 0x01, 0x00, 0x00, 0x00,
        0x48, 0x45, 0x4C, 0x4C, 0x4F]⟩ (by decide) (by decide) (by decide)).1⟩

/-- C6. A message whose data is shorter than the 8-byte LTV header is
forwarded to the next interceptor with a `nil` payload, without decoding
and without changing any of its fields. -/
theorem C6_short_data_forwarded (m : Message)
    (h : m.data.length < LTV_HEADER_SIZE) :
    Intercept (some m) = some (some m, none) := by
  simp only [Intercept, if_pos h]

/-- Witness for C6: a 3-byte message passes through untouched. -/
theorem C6_short_data_forwarded_witness :
    (([1, 2, 3] : List Nat).length < LTV_HEADER_SIZE) ∧
    Intercept (some ⟨3, 9, [1, 2, 3]⟩) = some (some ⟨3, 9, [1, 2, 3]⟩, none) :=
  ⟨by decide, C6_short_data_forwarded ⟨3, 9, [1, 2, 3]⟩ (by decide)⟩

/-- C9 counterexample. The claim asserts the interceptor returns a
result for every non-nil message, any declared length value.  The 8-byte
frame `01 00 00 00 00 00 00 00` declares a 1-byte value, so `decode`
slices `data[8:9]` out of range and panics (modelled `none`): the
interceptor does not return. -/
theorem C9_counterexample :
    Intercept (some ⟨0, 0, [1, 0, 0, 0, 0, 0, 0, 0]⟩) = none := by
  decide

/-- C9 (amended). The interceptor forwards `nil` when the chain's
current message is nil, and it returns a result for every non-nil
message whose data is shorter than the 8-byte header or whose declared
length `L` satisfies both `8 + L < 2^32` and `8 + L ≤ len(data)`;
outside that domain (data of at least 8 bytes declaring more value
bytes than are present, or `L ≥ 2^32 - 8` wrapping the uint32 slice
bound below 8) the slice bound is invalid and the code panics. -/
theorem C9_interceptor_domain :
    Intercept none = some (none, none) ∧
    ∀ m : Message,
      (m.data.length < LTV_HEADER_SIZE ∨
        (LTV_HEADER_SIZE + leUint32 (m.data.take 4) < 4294967296 ∧
          LTV_HEADER_SIZE + leUint32 (m.data.take 4) ≤ m.data.length)) →
      (Intercept (some m)).isSome = true := by
  refine ⟨rfl, ?_⟩
  intro m h
  by_cases hlt : m.data.length < LTV_HEADER_SIZE
  · simp [Intercept, if_pos hlt]
  · have h8 : LTV_HEADER_SIZE ≤ m.data.length := not_lt.mp hlt
    have hok : LTV_HEADER_SIZE + leUint32 (m.data.take 4) < 4294967296 ∧
        LTV_HEADER_SIZE + leUint32 (m.data.take 4) ≤ m.data.length := by
      rcases h with h | h
      · exact absurd h hlt
      · exact h
    simp only [Intercept, decode, if_neg hlt, if_pos h8]
    rw [Nat.mod_eq_of_lt hok.1]
    rw [if_pos ⟨Nat.le_add_right _ _, hok.2⟩]
    rfl

/-- Witness for C9: a nil message and a 2-byte message both get a
result. -/
theorem C9_interceptor_domain_witness :
    (Intercept (some ⟨0, 0, [9, 9]⟩)).isSome = true :=
  C9_interceptor_domain.2 ⟨0, 0, [9, 9]⟩ (Or.inl (by decide))

/-- C2. The LTV little-endian decoder's length-field descriptor is
exactly: offset 0, length-field length 4, adjustment 4, strip 0, byte
order little-endian. -/
theorem C2_ltv_length_field_descriptor :
    GetLengthField.LengthFieldOffset = 0 ∧
    GetLengthField.LengthFieldLength = 4 ∧
    GetLengthField.LengthAdjustment = 4 ∧
    GetLengthField.InitialBytesToStrip = 0 ∧
    GetLengthField.Order = ByteOrder.little := by
  refine ⟨rfl, rfl, rfl, rfl, rfl⟩

/-- C4. On the concrete bytes
`05 00 00 00 01 00 00 00 48 45 4C 4C 4F` the LTV little-endian decoder
produces exactly one decoded message with id 1, length 5 and data equal
to the ASCII bytes of "HELLO". -/
theorem C4_hello_frame_decodes :
    Intercept (some ⟨0, 0, [0x05, 0x00, 0x00, 0x00, 0x01, 0x00, 0x00, 0x00,
                            0x48, 0x45, 0x4C, 0x4C, 0x4F]⟩) =
      some (some ⟨1, 5, [0x48, 0x45, 0x4C, 0x4C, 0x4F]⟩,
            some ⟨5, 1, [0x48, 0x45, 0x4C, 0x4C, 0x4F]⟩) := by
  decide

end Gtcp

namespace Gtcp

/-- C8. In `UserConfToGlobal` the KCP stream-mode flag of the global
configuration is assigned from the user configuration only when the
incoming value is false; when it is true the global flag is left
unchanged (`if !config.KcpStreamMode`). -/
theorem C8_kcp_stream_mode_inversion (config g : Config) :
    (config.KcpStreamMode = false →
      (UserConfToGlobal config g).KcpStreamMode = config.KcpStreamMode) ∧
    (config.KcpStreamMode = true →
      (UserConfToGlobal config g).KcpStreamMode = g.KcpStreamMode) := by
  constructor
  · intro h
    simp [UserConfToGlobal, apply_ite Config.KcpStreamMode, h]
  · intro h
    simp [UserConfToGlobal, apply_ite Config.KcpStreamMode, h]

end Gtcp

namespace Gtcp

set_option maxHeartbeats 4000000 in
/-- C10. For every field of the user configuration other than
`LogIsolationLevel` and `KcpStreamMode`, a zero value (`0`, `""` or
`false`) leaves the corresponding global field unchanged, while
`LogIsolationLevel` is copied unconditionally, even when zero. -/
theorem C10_zero_fields_preserved (config g : Config) :
    (config.Name = "" → (UserConfToGlobal config g).Name = g.Name) ∧
    (config.Host = "" → (UserConfToGlobal config g).Host = g.Host) ∧
    (config.TcpPort = 0 → (UserConfToGlobal config g).TcpPort = g.TcpPort) ∧
    (config.Version = "" → (UserConfToGlobal config g).Version = g.Version) ∧
    (config.MaxPacketSize = 0 → (UserConfToGlobal config g).MaxPacketSize = g.MaxPacketSize) ∧
    (config.MaxConn = 0 → (UserConfToGlobal config g).MaxConn = g.MaxConn) ∧
    (config.WorkerPoolSize = 0 → (UserConfToGlobal config g).WorkerPoolSize = g.WorkerPoolSize) ∧
    (config.MaxWorkerTaskLen = 0 → (UserConfToGlobal config g).MaxWorkerTaskLen = g.MaxWorkerTaskLen) ∧
    (config.WorkerMode = "" → (UserConfToGlobal config g).WorkerMode = g.WorkerMode) ∧
    (config.MaxMsgChanLen = 0 → (UserConfToGlobal config g).MaxMsgChanLen = g.MaxMsgChanLen) ∧
    (config.IOReadBuffSize = 0 → (UserConfToGlobal config g).IOReadBuffSize = g.IOReadBuffSize) ∧
    (config.LogDir = "" → (UserConfToGlobal config g).LogDir = g.LogDir) ∧
    (config.LogFile = "" → (UserConfToGlobal config g).LogFile = g.LogFile) ∧
    (config.HeartbeatMax = 0 → (UserConfToGlobal config g).HeartbeatMax = g.HeartbeatMax) ∧
    (config.CertFile = "" → (UserConfToGlobal config g).CertFile = g.CertFile) ∧
    (config.PrivateKeyFile = "" → (UserConfToGlobal config g).PrivateKeyFile = g.PrivateKeyFile) ∧
    (config.Mode = "" → (UserConfToGlobal config g).Mode = g.Mode) ∧
    (config.WsPort = 0 → (UserConfToGlobal config g).WsPort = g.WsPort) ∧
    (config.RouterSlicesMode = false → (UserConfToGlobal config g).RouterSlicesMode = g.RouterSlicesMode) ∧
    (config.RequestPoolMode = false → (UserConfToGlobal config g).RequestPoolMode = g.RequestPoolMode) ∧
    (config.KcpPort = 0 → (UserConfToGlobal config g).KcpPort = g.KcpPort) ∧
    (config.KcpACKNoDelay = false → (UserConfToGlobal config g).KcpACKNoDelay = g.KcpACKNoDelay) ∧
    (config.KcpNoDelay = 0 → (UserConfToGlobal config g).KcpNoDelay = g.KcpNoDelay) ∧
    (config.KcpInterval = 0 → (UserConfToGlobal config g).KcpInterval = g.KcpInterval) ∧
    (config.KcpResend = 0 → (UserConfToGlobal config g).KcpResend = g.KcpResend) ∧
    (config.KcpNc = 0 → (UserConfToGlobal config g).KcpNc = g.KcpNc) ∧
    (config.KcpSendWindow = 0 → (UserConfToGlobal config g).KcpSendWindow = g.KcpSendWindow) ∧
    (config.KcpRecvWindow = 0 → (UserConfToGlobal config g).KcpRecvWindow = g.KcpRecvWindow) ∧
    (config.KcpFecDataShards = 0 → (UserConfToGlobal config g).KcpFecDataShards = g.KcpFecDataShards) ∧
    (config.KcpFecParityShards = 0 → (UserConfToGlobal config g).KcpFecParityShards = g.KcpFecParityShards) ∧
    (UserConfToGlobal config g).LogIsolationLevel = config.LogIsolationLevel := by
  refine ⟨?_, ?_, ?_, ?_, ?_, ?_, ?_, ?_, ?_, ?_, ?_, ?_, ?_, ?_, ?_, ?_, ?_, ?_, ?_, ?_, ?_, ?_, ?_, ?_, ?_, ?_, ?_, ?_, ?_, ?_, ?_⟩
  · intro h
    simp [UserConfToGlobal, apply_ite Config.Name, h]
  · intro h
    simp [UserConfToGlobal, apply_ite Config.Host, h]
  · intro h
    simp [UserConfToGlobal, apply_ite Config.TcpPort, h]
  · intro h
    simp [UserConfToGlobal, apply_ite Config.Version, h]
  · intro h
    simp [UserConfToGlobal, apply_ite Config.MaxPacketSize, h]
  · intro h
    simp [UserConfToGlobal, apply_ite Config.MaxConn, h]
  · intro h
    simp [UserConfToGlobal, apply_ite Config.WorkerPoolSize, h]
  · intro h
    simp [UserConfToGlobal, apply_ite Config.MaxWorkerTaskLen, h]
  · intro h
    simp [UserConfToGlobal, apply_ite Config.WorkerMode, h]
  · intro h
    simp [UserConfToGlobal, apply_ite Config.MaxMsgChanLen, h]
  · intro h
    simp [UserConfToGlobal, apply_ite Config.IOReadBuffSize, h]
  · intro h
    simp [UserConfToGlobal, apply_ite Config.LogDir, h]
  · intro h
    simp [UserConfToGlobal, apply_ite Config.LogFile, h]
  · intro h
    simp [UserConfToGlobal, apply_ite Config.HeartbeatMax, h]
  · intro h
    simp [UserConfToGlobal, apply_ite Config.CertFile, h]
  · intro h
    simp [UserConfToGlobal, apply_ite Config.PrivateKeyFile, h]
  · intro h
    simp [UserConfToGlobal, apply_ite Config.Mode, h]
  · intro h
    simp [UserConfToGlobal, apply_ite Config.WsPort, h]
  · intro h
    simp [UserConfToGlobal, apply_ite Config.RouterSlicesMode, h]
  · intro h
    simp [UserConfToGlobal, apply_ite Config.RequestPoolMode, h]
  · intro h
    simp [UserConfToGlobal, apply_ite Config.KcpPort, h]
  · intro h
    simp [UserConfToGlobal, apply_ite Config.KcpACKNoDelay, h]
  · intro h
    simp [UserConfToGlobal, apply_ite Config.KcpNoDelay, h]
  · intro h
    simp [UserConfToGlobal, apply_ite Config.KcpInterval, h]
  · intro h
    simp [UserConfToGlobal, apply_ite Config.KcpResend, h]
  · intro h
    simp [UserConfToGlobal, apply_ite Config.KcpNc, h]
  · intro h
    simp [UserConfToGlobal, apply_ite Config.KcpSendWindow, h]
  · intro h
    simp [UserConfToGlobal, apply_ite Config.KcpRecvWindow, h]
  · intro h
    simp [UserConfToGlobal, apply_ite Config.KcpFecDataShards, h]
  · intro h
    simp [UserConfToGlobal, apply_ite Config.KcpFecParityShards, h]
  · simp [UserConfToGlobal, apply_ite Config.LogIsolationLevel]

end Gtcp

namespace Gtcp

/-- C3 counterexample. `GetLengthField` fixes `MaxFrameLength` at
`MaxUint32 + 8` regardless of the configured `max_packet_size`.  With
`max_packet_size = 4096` (the framework's usual packet cap), a frame
declaring `4096 + 1` value bytes must be rejected by the claim, yet the
framer check derived from the emitted configuration accepts it. -/
theorem C3_counterexample :
    frameTooLarge GetLengthField 4096 = false ∧
    frameTooLarge GetLengthField (4096 + 1) = false := by
  decide

/-- C3 (amended). The framer configuration produced by the LTV
decoder sets `max_frame_length = 2^32 + 7`, independent of
`max_packet_size`: every frame whose declared value length is a
representable u32 is accepted, and rejection with `FrameTooLarge` would
require a declared value length of at least `2^32`. -/
theorem C3_max_frame_length_boundary (L : Nat) (h : L ≤ 4294967295) :
    GetLengthField.MaxFrameLength = 4294967303 ∧
    frameTooLarge GetLengthField L = false ∧
    frameTooLarge GetLengthField 4294967296 = true := by
  refine ⟨rfl, ?_, by decide⟩
  simp only [frameTooLarge, frameTotalLength, GetLengthField,
    decide_eq_false_iff_not, not_lt, gt_iff_lt]
  omega

/-- Witness for C3: the `max_packet_size`-sized value length 4096 is
representable, accepted, and the true rejection boundary is `2^32`. -/
theorem C3_max_frame_length_boundary_witness :
    (4096 ≤ 4294967295) ∧
    (GetLengthField.MaxFrameLength = 4294967303 ∧
      frameTooLarge GetLengthField 4096 = false ∧
      frameTooLarge GetLengthField 4294967296 = true) :=
  ⟨by decide, C3_max_frame_length_boundary 4096 (by decide)⟩

/-- An all-zero user configuration (every field at its Go zero value). -/
def zeroConfig : Config :=
  ⟨ "", "", 0, "", 0, 0, 0, 0, "", 0, 0, 0, "", "", 0, "", "", "", 0,
   false, false, 0, false, false, 0, 0, 0, 0, 0, 0, 0, 0⟩

/-- A fully populated global configuration used as merge target in the
witnesses. -/
def sampleGlobal : Config :=
  ⟨ "gtcp-server", "0.0.0.0", 8999, "V1.0", 4096, 12000, 10, 1024, "hash",
   1024, 1024, 3, "./log", "server.log", 10, "cert.pem", "key.pem", "tcp",
   9000, true, true, 9001, true, true, 1, 10, 2, 1, 1024, 1024, 10, 3⟩

/-- The all-zero user configuration with KCP stream mode switched on. -/
def streamOnConfig : Config :=
  { zeroConfig with KcpStreamMode := true }

/-- Witness for C8: an incoming false flag is copied (turning the global
flag off), an incoming true flag leaves the global flag untouched. -/
theorem C8_kcp_stream_mode_inversion_witness :
    (UserConfToGlobal zeroConfig sampleGlobal).KcpStreamMode =
      zeroConfig.KcpStreamMode ∧
    (UserConfToGlobal streamOnConfig sampleGlobal).KcpStreamMode =
      sampleGlobal.KcpStreamMode :=
  ⟨(C8_kcp_stream_mode_inversion zeroConfig sampleGlobal).1 rfl,
   (C8_kcp_stream_mode_inversion streamOnConfig sampleGlobal).2 rfl⟩

end Gtcp

namespace Gtcp

/-- Witness for C10: merging the all-zero user configuration into the
populated global one leaves every guarded field unchanged and copies
the (zero) log isolation level. -/
theorem C10_zero_fields_preserved_witness :
    ((UserConfToGlobal zeroConfig sampleGlobal).Name = sampleGlobal.Name) ∧
    ((UserConfToGlobal zeroConfig sampleGlobal).Host = sampleGlobal.Host) ∧
    ((UserConfToGlobal zeroConfig sampleGlobal).TcpPort = sampleGlobal.TcpPort) ∧
    ((UserConfToGlobal zeroConfig sampleGlobal).Version = sampleGlobal.Version) ∧
    ((UserConfToGlobal zeroConfig sampleGlobal).MaxPacketSize = sampleGlobal.MaxPacketSize) ∧
    ((UserConfToGlobal zeroConfig sampleGlobal).MaxConn = sampleGlobal.MaxConn) ∧
    ((UserConfToGlobal zeroConfig sampleGlobal).WorkerPoolSize = sampleGlobal.WorkerPoolSize) ∧
    ((UserConfToGlobal zeroConfig sampleGlobal).MaxWorkerTaskLen = sampleGlobal.MaxWorkerTaskLen) ∧
    ((UserConfToGlobal zeroConfig sampleGlobal).WorkerMode = sampleGlobal.WorkerMode) ∧
    ((UserConfToGlobal zeroConfig sampleGlobal).MaxMsgChanLen = sampleGlobal.MaxMsgChanLen) ∧
    ((UserConfToGlobal zeroConfig sampleGlobal).IOReadBuffSize = sampleGlobal.IOReadBuffSize) ∧
    ((UserConfToGlobal zeroConfig sampleGlobal).LogDir = sampleGlobal.LogDir) ∧
    ((UserConfToGlobal zeroConfig sampleGlobal).LogFile = sampleGlobal.LogFile) ∧
    ((UserConfToGlobal zeroConfig sampleGlobal).HeartbeatMax = sampleGlobal.HeartbeatMax) ∧
    ((UserConfToGlobal zeroConfig sampleGlobal).CertFile = sampleGlobal.CertFile) ∧
    ((UserConfToGlobal zeroConfig sampleGlobal).PrivateKeyFile = sampleGlobal.PrivateKeyFile) ∧
    ((UserConfToGlobal zeroConfig sampleGlobal).Mode = sampleGlobal.Mode) ∧
    ((UserConfToGlobal zeroConfig sampleGlobal).WsPort = sampleGlobal.WsPort) ∧
    ((UserConfToGlobal zeroConfig sampleGlobal).RouterSlicesMode = sampleGlobal.RouterSlicesMode) ∧
    ((UserConfToGlobal zeroConfig sampleGlobal).RequestPoolMode = sampleGlobal.RequestPoolMode) ∧
    ((UserConfToGlobal zeroConfig sampleGlobal).KcpPort = sampleGlobal.KcpPort) ∧
    ((UserConfToGlobal zeroConfig sampleGlobal).KcpACKNoDelay = sampleGlobal.KcpACKNoDelay) ∧
    ((UserConfToGlobal zeroConfig sampleGlobal).KcpNoDelay = sampleGlobal.KcpNoDelay) ∧
    ((UserConfToGlobal zeroConfig sampleGlobal).KcpInterval = sampleGlobal.KcpInterval) ∧
    ((UserConfToGlobal zeroConfig sampleGlobal).KcpResend = sampleGlobal.KcpResend) ∧
    ((UserConfToGlobal zeroConfig sampleGlobal).KcpNc = sampleGlobal.KcpNc) ∧
    ((UserConfToGlobal zeroConfig sampleGlobal).KcpSendWindow = sampleGlobal.KcpSendWindow) ∧
    ((UserConfToGlobal zeroConfig sampleGlobal).KcpRecvWindow = sampleGlobal.KcpRecvWindow) ∧
    ((UserConfToGlobal zeroConfig sampleGlobal).KcpFecDataShards = sampleGlobal.KcpFecDataShards) ∧
    ((UserConfToGlobal zeroConfig sampleGlobal).KcpFecParityShards = sampleGlobal.KcpFecParityShards) ∧
    (UserConfToGlobal zeroConfig sampleGlobal).LogIsolationLevel =
      zeroConfig.LogIsolationLevel := by
  obtain ⟨h1, h2, h3, h4, h5, h6, h7, h8, h9, h10, h11, h12, h13, h14, h15, h16, h17, h18, h19, h20, h21, h22, h23, h24, h25, h26, h27, h28, h29, h30, h31⟩ :=
    C10_zero_fields_preserved zeroConfig sampleGlobal
  exact ⟨h1 rfl, h2 rfl, h3 rfl, h4 rfl, h5 rfl, h6 rfl, h7 rfl, h8 rfl, h9 rfl, h10 rfl, h11 rfl, h12 rfl, h13 rfl, h14 rfl, h15 rfl, h16 rfl, h17 rfl, h18 rfl, h19 rfl, h20 rfl, h21 rfl, h22 rfl, h23 rfl, h24 rfl, h25 rfl, h26 rfl, h27 rfl, h28 rfl, h29 rfl, h30 rfl, h31⟩

end Gtcp

namespace Gtcp

/-! ## giface/gnet: heartbeat defaults and client registration -/

/-- Embeds `giface.HeartBeatDefaultMsgID`. -/
def HeartBeatDefaultMsgID : Nat := 99999

/-- The observables of `giface.IHeartbeatChecker` the client uses:
`MsgID()` and `Router()` (the router is an opaque handle). -/
structure HeartbeatChecker where
  interval : Nat
  msgID : Nat
  router : Nat
  deriving DecidableEq, Repr

/-- Modelled from the spec: `gnet.NewHeartbeatChecker` (its file is not
among the provided sources) builds a checker whose bound probe message
id defaults to `99999`, carrying the built-in heartbeat router (handle
`0`). -/
def NewHeartbeatChecker (interval : Nat) : HeartbeatChecker :=
  { interval := interval, msgID := HeartBeatDefaultMsgID, router := 0 }

/-- The slice of `gnet.Client` state that heartbeat start-up touches:
the message handler's id-to-router map and the bound checker. -/
structure Client where
  msgHandlerRouters : List (Nat × Nat)
  hc : Option HeartbeatChecker
  deriving DecidableEq, Repr

/-- Embeds `gnet.Client.AddRouter`: delegates to `msgHandler.AddRouter`; the
most recent binding for an id wins. -/
def Client.AddRouter (c : Client) (msgID : Nat) (router : Nat) : Client :=
  { c with msgHandlerRouters := (msgID, router) :: c.msgHandlerRouters }

/-- Lookup in the message handler's router map. -/
def Client.lookupRouter (c : Client) (msgID : Nat) : Option Nat :=
  (c.msgHandlerRouters.find? (fun p => p.1 == msgID)).map (fun p => p.2)

/-- Embeds `gnet.Client.StartHeartBeat`: creates a checker, registers the
checker's route under the checker's message id, and binds the checker to
the client. -/
def Client.StartHeartBeat (c : Client) (interval : Nat) : Client :=
  let checker := NewHeartbeatChecker interval
  let c1 := c.AddRouter checker.msgID checker.router
  { c1 with hc := some checker }

/-! ## gnet: panic-recovery middleware

Go strings are embedded as `List Char` here so that `strings.Split` and
`path.Base` stay executable; a handler run is its outcome, `Except`-style
(`error` carries the panic value); the middleware itself panicking is
the outer `none`. -/

/-- Embeds `gnet.StackBegin`: first call-stack depth traced. -/
def StackBegin : Nat := 3

/-- Embeds `gnet.StackEnd`: last call-stack depth traced. -/
def StackEnd : Nat := 5

/-- A call-stack entry as `runtime.Caller` reports it: function name,
full file path and line number.  `runtime.Caller i` is modelled as the
list entry at depth `i` (`ok` is false past the end). -/
structure StackFrame where
  funcname : List Char
  file : List Char
  lineNo : Nat
  deriving DecidableEq, Repr

/-- Embeds `strings.Split`: split at every occurrence of the separator; a
string without the separator yields a single piece. -/
def splitChar (sep : Char) : List Char → List (List Char)
  | [] => [[]]
  | c :: cs =>
    match splitChar sep cs with
    | [] => [[c]]
    | h :: t => if c = sep then [] :: h :: t else (c :: h) :: t

/-- Embeds `path.Base`: `""` gives `"."`, trailing slashes are dropped, an
all-slash path gives `"/"`, otherwise the part after the last slash. -/
def pathBase (p : List Char) : List Char :=
  if p = [] then ['.']
  else
    let q := (p.reverse.dropWhile (fun c => c = '/')).reverse
    if q = [] then ['/']
    else (splitChar '/' q).getLastD []

/-- One line written by `getInfo`
(`funcname:%s filename:%s LineNo:%d`). -/
structure PanicFrameInfo where
  funcname : List Char
  filename : List Char
  lineNo : Nat
  deriving DecidableEq, Repr

/-- The loop of `gnet.getInfo`: `i` runs from `ship` while
`i ≤ StackEnd` (`fuel` iterations remain), breaking at the first depth
`runtime.Caller` rejects.  `strings.Split(funcname, ".")[1]` panics
(`none`) when the function name holds no dot. -/
def getInfoLoop (stack : List StackFrame) :
    Nat → Nat → Option (List PanicFrameInfo)
  | _, 0 => some []
  | i, fuel + 1 =>
    match stack.get? i with
    | none => some []
    | some f =>
      match (splitChar '.' f.funcname).get? 1 with
      | none => none
      | some fn =>
        (getInfoLoop stack (i + 1) fuel).map
          (fun rest => ⟨fn, pathBase f.file, f.lineNo⟩ :: rest)

/-- Embeds `gnet.getInfo`: the frame lines for depths `ship` through
`StackEnd`. -/
def getInfo (ship : Nat) (stack : List StackFrame) :
    Option (List PanicFrameInfo) :=
  getInfoLoop stack ship (StackEnd + 1 - ship)

/-- The observable outcome of `RouterRecovery`: either nothing was
recovered, or a panic was recovered and one error line carrying the
message id, the collected frame lines and the panic value was logged. -/
inductive RecoveryOutcome where
  | normal
  | recovered (msgId : Nat) (info : List PanicFrameInfo) (err : List Char)
  deriving DecidableEq, Repr

/-- Embeds `gnet.RouterRecovery`: runs `request.RouterSlicesNext()` under a
deferred `recover`; on a recovered panic it logs the message id, the
`getInfo StackBegin` frames and the panic value.  The outer `none`
models the middleware itself panicking inside `getInfo`. -/
def RouterRecovery (msgId : Nat) (next : Except (List Char) Unit)
    (stack : List StackFrame) : Option RecoveryOutcome :=
  match next with
  | .ok _ => some RecoveryOutcome.normal
  | .error err =>
    match getInfo StackBegin stack with
    | none => none
    | some info => some (RecoveryOutcome.recovered msgId info err)

end Gtcp

namespace Gtcp

/-- C7. The default heartbeat probe message id is 99999, and when a
client starts heartbeat detection the checker is bound to the client
and the checker's router is registered in the message handler under the
checker's bound message id. -/
theorem C7_heartbeat_default_and_registration (c : Client) (interval : Nat) :
    HeartBeatDefaultMsgID = 99999 ∧
    (c.StartHeartBeat interval).hc = some (NewHeartbeatChecker interval) ∧
    (c.StartHeartBeat interval).lookupRouter
        (NewHeartbeatChecker interval).msgID =
      some (NewHeartbeatChecker interval).router := by
  refine ⟨rfl, rfl, ?_⟩
  simp [Client.StartHeartBeat, Client.AddRouter, Client.lookupRouter,
    NewHeartbeatChecker, List.find?]

/-- If every stack entry's function name contains a dot, the `getInfo`
loop never hits the `Split(...)[1]` panic. -/
lemma getInfoLoop_isSome (stack : List StackFrame)
    (hdot : ∀ f ∈ stack, 2 ≤ (splitChar '.' f.funcname).length) :
    ∀ fuel i, (getInfoLoop stack i fuel).isSome = true := by
  intro fuel
  induction fuel with
  | zero => intro i; rfl
  | succ n ih =>
    intro i
    simp only [getInfoLoop]
    split
    · rfl
    · rename_i f hg
      split
      · rename_i hsplit
        have h2 := hdot f (List.get?_mem hg)
        have h1 : 1 < (splitChar '.' f.funcname).length := by omega
        rw [List.get?_eq_getElem?, List.getElem?_eq_getElem h1] at hsplit
        cases hsplit
      · rename_i fn hsplit
        simpa [Option.isSome_map] using ih (i + 1)

/-- The `getInfo` loop emits at most one line per remaining iteration. -/
lemma getInfoLoop_length_le (stack : List StackFrame) :
    ∀ fuel i info, getInfoLoop stack i fuel = some info →
      info.length ≤ fuel := by
  intro fuel
  induction fuel with
  | zero =>
    intro i info h
    simp only [getInfoLoop] at h
    cases h
    simp
  | succ n ih =>
    intro i info h
    simp only [getInfoLoop] at h
    split at h
    · cases h
      simp
    · split at h
      · cases h
      · rename_i fn hsplit
        cases hrec : getInfoLoop stack (i + 1) n with
        | none => rw [hrec] at h; cases h
        | some rest =>
          rw [hrec] at h
          cases h
          have := ih (i + 1) rest hrec
          simp only [List.length_cons]
          omega

/-- C5. For every handler panic below it, given that every reported
stack function name is package-qualified (holds a dot, as Go runtime
names are), the recovery middleware returns normally — it never re-throws
— and logs exactly one error line carrying the message id together with
the frame lines for stack depths 3 through 5 (hence at most three
frames). -/
theorem C5_recovery_catches_handler_panics (msgId : Nat) (err : List Char)
    (stack : List StackFrame)
    (hdot : ∀ f ∈ stack, 2 ≤ (splitChar '.' f.funcname).length) :
    ∃ info, getInfo StackBegin stack = some info ∧
      RouterRecovery msgId (Except.error err) stack =
        some (RecoveryOutcome.recovered msgId info err) ∧
      info.length ≤ 3 := by
  have hsome := getInfoLoop_isSome stack hdot (StackEnd + 1 - StackBegin) StackBegin
  cases hinfo : getInfoLoop stack StackBegin (StackEnd + 1 - StackBegin) with
  | none => rw [hinfo] at hsome; simp at hsome
  | some info =>
    refine ⟨info, ?_, ?_, ?_⟩
    · simpa [getInfo] using hinfo
    · simp only [RouterRecovery, getInfo]
      rw [hinfo]
    · exact getInfoLoop_length_le stack (StackEnd + 1 - StackBegin) StackBegin info hinfo

/-- Witness for C5: a six-deep stack of dotted runtime names; the panic
`boom` on message 5 is recovered and logged with three frame lines. -/
theorem C5_recovery_catches_handler_panics_witness :
    ∃ info,
      getInfo StackBegin
          [⟨ "runtime.gopanic".toList, "/usr/local/go/src/runtime/panic.go".toList, 770⟩,
           ⟨ "main.badHandler".toList, "/app/main.go".toList, 21⟩,
           ⟨ "gnet.RouterRecovery".toList, "/app/gnet/middleware.go".toList, 40⟩,
           ⟨ "gnet.runHandlers".toList, "/app/gnet/msghandler.go".toList, 88⟩,
           ⟨ "gnet.startReader".toList, "/app/gnet/connection.go".toList, 130⟩,
           ⟨ "runtime.goexit".toList, "/usr/local/go/src/runtime/asm.s".toList, 1650⟩] =
        some info ∧
      RouterRecovery 5 (Except.error "boom".toList)
          [⟨ "runtime.gopanic".toList, "/usr/local/go/src/runtime/panic.go".toList, 770⟩,
           ⟨ "main.badHandler".toList, "/app/main.go".toList, 21⟩,
           ⟨ "gnet.RouterRecovery".toList, "/app/gnet/middleware.go".toList, 40⟩,
           ⟨ "gnet.runHandlers".toList, "/app/gnet/msghandler.go".toList, 88⟩,
           ⟨ "gnet.startReader".toList, "/app/gnet/connection.go".toList, 130⟩,
           ⟨ "runtime.goexit".toList, "/usr/local/go/src/runtime/asm.s".toList, 1650⟩] =
        some (RecoveryOutcome.recovered 5 info "boom".toList) ∧
      info.length ≤ 3 :=
  C5_recovery_catches_handler_panics 5 "boom".toList _ (by decide)

end Gtcp
